import Mathlib

/-!
Verification of the economic-dashboard core (src/app.py) against its
specification. The Python code is shallowly embedded: SQLite tables become
lists of rows, calendar dates become a `Date` structure with a civil
day-number conversion standing in for `julianday`, numeric values and
timestamps are exact rationals, and fallible steps return `Option`/`Except`.
-/

namespace EconDash

section

set_option allowUnsafeReducibility true

attribute [local semireducible] Rat.mul Rat.add Rat.div Rat.inv Rat.sub Rat.neg

/-- A calendar date (year, month, day), embedding Python `datetime` values
(the code never uses the time-of-day component). -/
structure Date where
  year : Int
  month : Nat
  day : Nat
deriving DecidableEq, Repr

/-- Gregorian leap-year rule, as used by Python's `datetime` validation. -/
def isLeapYear (y : Int) : Bool :=
  y % 4 == 0 && (y % 100 != 0 || y % 400 == 0)

/-- Number of days in a month of a given year (0 for an invalid month). -/
def daysInMonth (y : Int) (m : Nat) : Nat :=
  match m with
  | 1 => 31
  | 2 => if isLeapYear y then 29 else 28
  | 3 => 31
  | 4 => 30
  | 5 => 31
  | 6 => 30
  | 7 => 31
  | 8 => 31
  | 9 => 30
  | 10 => 31
  | 11 => 30
  | 12 => 31
  | _ => 0

/-- Whether a `Date` denotes a real calendar day; Python's `datetime`
constructor (and hence `strptime` and `replace`) raises exactly when this is
false. -/
def validDate (d : Date) : Bool :=
  1 ≤ d.month && d.month ≤ 12 && 1 ≤ d.day && d.day ≤ daysInMonth d.year d.month

/-- Day number of a date (days since 1970-01-01, the standard civil-from-date
algorithm). Differences of `toDays` embed both SQLite `julianday` differences
and Python `timedelta` day arithmetic. -/
def toDays (dt : Date) : Int :=
  let y : Int := if dt.month ≤ 2 then dt.year - 1 else dt.year
  let era : Int := Int.fdiv y 400
  let yoe : Nat := (y - era * 400).toNat
  let mp : Nat := (dt.month + 9) % 12
  let doy : Nat := (153 * mp + 2) / 5 + dt.day - 1
  let doe : Nat := yoe * 365 + yoe / 4 - yoe / 100 + doy
  era * 146097 + (doe : Int) - 719468

/-- Python `d.replace(year := y)`: the same month and day in year `y`, or
`none` when that date does not exist (Python raises `ValueError`, e.g. for
Feb 29 in a non-leap year). -/
def replaceYear (d : Date) (y : Int) : Option Date :=
  if validDate ⟨y, d.month, d.day⟩ then some ⟨y, d.month, d.day⟩ else none

/-- One row of the `indicator_data` table (`id` and `created_at` columns are
never read by the code and are omitted). -/
structure Row where
  sid : String
  date : Date
  value : ℚ
deriving DecidableEq, Repr

/-- One point of the list produced by `get_indicator_data`. -/
structure DataPoint where
  date : Date
  value : ℚ
deriving DecidableEq, Repr

/-- One step of first-minimum selection: keep the accumulator unless the new
element has a strictly smaller measure. -/
def pickStep {α β : Type} [LinearOrder β] (f : α → β) (acc : Option α) (x : α) :
    Option α :=
  match acc with
  | none => some x
  | some b => if f x < f b then some x else some b

/-- Generic first-minimum selection: folds a list keeping the element with
the smallest measure `f`, preferring earlier elements on ties. Used to embed
SQL `ORDER BY ... LIMIT 1`. -/
def pickMin {α β : Type} [LinearOrder β] (f : α → β) : List α → Option α → Option α
  | [], acc => acc
  | x :: l, acc => pickMin f l (pickStep f acc x)

/-- Absolute day distance of a date from a target day number. -/
def distTo (target : Int) (d : Date) : Nat :=
  (toDays d - target).natAbs

/-- Whether a row matches the series and lies in the `±15` day window around
the target (the SQL `series_id = ? AND date BETWEEN target-15 AND target+15`;
for zero-padded ISO date strings the string `BETWEEN` is date order). -/
def inWindow (sid : String) (target : Int) (r : Row) : Bool :=
  r.sid == sid && distTo target r.date ≤ 15

/-- Embeds the query used by all change calculations:
`SELECT date, value FROM indicator_data WHERE series_id = ? AND date BETWEEN
? AND ? ORDER BY ABS(julianday(date) - julianday(?)) LIMIT 1` with window
`[target - 15 days, target + 15 days]`. -/
def queryNearest (store : List Row) (sid : String) (target : Int) : Option Row :=
  pickMin (fun r => distTo target r.date) (store.filter (inWindow sid target)) none

/-- The change formula shared by the calculators (src/app.py lines 571-578,
624-631, 667-674): a point difference for "percentage"-formatted indicators,
otherwise a relative percentage change that is undefined on a zero historical
value. -/
def changeRule (format_type : String) (current h : ℚ) : Option ℚ :=
  if format_type == "percentage" then some (current - h)
  else if h == 0 then none
  else some ((current - h) / |h| * 100)

/-- Embeds `calculate_yoy_change` (src/app.py lines 591-635). An invalid
current date or a Feb 29 current date makes `strptime`/`replace` raise, which
the function's `except` handler turns into `None`. -/
def calculate_yoy_change (store : List Row) (current_date : Date)
    (current_value : ℚ) (series_id : Option String) (format_type : String) :
    Option ℚ :=
  if ¬ validDate current_date then none
  else
    match replaceYear current_date (current_date.year - 1) with
    | none => none
    | some year_ago =>
      match series_id with
      | none => none
      | some sid =>
        match queryNearest store sid (toDays year_ago) with
        | none => none
        | some r => changeRule format_type current_value r.value

/-- Embeds `calculate_qoq_change` (src/app.py lines 637-678): the target is a
fixed 90 days back. -/
def calculate_qoq_change (store : List Row) (current_date : Date)
    (current_value : ℚ) (series_id : Option String) (format_type : String) :
    Option ℚ :=
  if ¬ validDate current_date then none
  else
    match series_id with
    | none => none
    | some sid =>
      match queryNearest store sid (toDays current_date - 90) with
      | none => none
      | some r => changeRule format_type current_value r.value

/-- The `period_days` table of `calculate_period_change` (src/app.py
lines 538-544). -/
def periodDays (period : String) : Option Int :=
  if period == "3M" then some 90
  else if period == "6M" then some 180
  else if period == "1Y" then some 365
  else if period == "5Y" then some 1825
  else if period == "10Y" then some 3650
  else none

/-- Embeds `calculate_period_change` (src/app.py lines 527-589). When the
windowed lookup finds no row, or the period is not in `period_days`, or no
series id is given, control falls through to the first-versus-last fallback
at lines 580-589. -/
def calculate_period_change (store : List Row) (data : List DataPoint)
    (format_type : String) (period : String) (series_id : Option String) :
    Option ℚ :=
  if data.length < 2 then none
  else
    match data.getLast?, data.head? with
    | some latest, some first =>
      let fallback := changeRule format_type latest.value first.value
      (match series_id with
       | none => fallback
       | some sid =>
         match periodDays period with
         | none => fallback
         | some pd =>
           match queryNearest store sid (toDays latest.date - pd) with
           | none => fallback
           | some r => changeRule format_type latest.value r.value)
    | _, _ => none

/-- Floor of a rational, written with `Int.fdiv` so that it evaluates by
kernel reduction. -/
def ratFloor (q : ℚ) : Int :=
  Int.fdiv q.num (Int.ofNat q.den)

/-- Round to the nearest integer, ties to even: the rounding used by Python
`format` on exactly representable values. -/
def roundHalfEven (q : ℚ) : Int :=
  let f := ratFloor q
  let r := q - (f : ℚ)
  if r < 1/2 then f
  else if 1/2 < r then f + 1
  else if f % 2 = 0 then f else f + 1

/-- Split a digit list (least significant first) into groups of three. -/
def chunk3 : List Char → List (List Char)
  | [] => []
  | [a] => [[a]]
  | [a, b] => [[a, b]]
  | a :: b :: c :: rest => [a, b, c] :: chunk3 rest

/-- Decimal rendering of a natural number with `,` separators every three
digits, as Python's `,` format option produces. -/
def commaGroupNat (n : Nat) : String :=
  let ds := (toString n).toList.reverse
  let chunks := (chunk3 ds).map List.reverse
  String.mk (List.intercalate [','] chunks.reverse)

/-- Embeds the Python f-string conversion `f"{v:,.1f}"` on exact values: one
decimal digit, round half to even, thousands separators. -/
def format1f (v : ℚ) : String :=
  let n := roundHalfEven (v * 10)
  let sign := if n < 0 then "-" else ""
  let a := n.natAbs
  sign ++ commaGroupNat (a / 10) ++ "." ++ toString (a % 10)

/-- Embeds `format_value` (src/app.py lines 680-762). `value = none` is the
Python `None` input; the unit is `none` when no unit applies. -/
def format_value (value : Option ℚ) (format_type : String) (unit : Option String) :
    String :=
  match value with
  | none => "N/A"
  | some v =>
    if format_type == "currency" then
      if unit == some "billions" then
        if 1000 ≤ |v| then "$" ++ format1f (v / 1000) ++ "T"
        else "$" ++ format1f v ++ "B"
      else if unit == some "millions" then
        if 1000000 ≤ |v| then "$" ++ format1f (v / 1000000) ++ "T"
        else if 1000 ≤ |v| then "$" ++ format1f (v / 1000) ++ "B"
        else "$" ++ format1f v ++ "M"
      else
        if 1000000000000 ≤ |v| then "$" ++ format1f (v / 1000000000000) ++ "T"
        else if 1000000000 ≤ |v| then "$" ++ format1f (v / 1000000000) ++ "B"
        else if 1000000 ≤ |v| then "$" ++ format1f (v / 1000000) ++ "M"
        else if 1000 ≤ |v| then "$" ++ format1f (v / 1000) ++ "K"
        else "$" ++ format1f v
    else if format_type == "percentage" then
      format1f v ++ "%"
    else if format_type == "number" then
      if unit == some "thousands" then
        if 1000000 ≤ |v| then format1f (v / 1000000) ++ "B"
        else if 1000 ≤ |v| then format1f (v / 1000) ++ "M"
        else format1f v ++ "K"
      else if unit == some "millions" then
        if 1000000 ≤ |v| then format1f (v / 1000000) ++ "T"
        else if 1000 ≤ |v| then format1f (v / 1000) ++ "B"
        else format1f v ++ "M"
      else if unit == some "billions" then
        if 1000 ≤ |v| then format1f (v / 1000) ++ "T"
        else format1f v ++ "B"
      else
        if 1000000000000 ≤ |v| then format1f (v / 1000000000000) ++ "T"
        else if 1000000000 ≤ |v| then format1f (v / 1000000000) ++ "B"
        else if 1000000 ≤ |v| then format1f (v / 1000000) ++ "M"
        else if 1000 ≤ |v| then format1f (v / 1000) ++ "K"
        else format1f v
    else
      format1f v

/-- Python truthiness of an optional float, as used by
`analyze_indicator_health`: `None` and `0.0` are falsy. -/
def truthy (o : Option ℚ) : Bool :=
  match o with
  | none => false
  | some x => x != 0

/-- Embeds `analyze_indicator_health` (src/app.py lines 973-1025). The
Python signature also receives `three_year_avg` and the indicator `config`,
neither of which the body reads; `three_year_avg` is kept for fidelity.
Conditions of the form `if yoy_change and yoy_change > c` test Python
truthiness first, so a `0.0` year-over-year change behaves like `None`. -/
def analyze_indicator_health (series_id : String) (current_value : ℚ)
    (yoy_change : Option ℚ) (three_year_avg ten_year_avg : ℚ) : ℚ :=
  if series_id == "UNRATE" then
    if current_value ≤ 4 then 9/10
    else if current_value ≤ 6 then 6/10
    else 2/10
  else if series_id == "PAYEMS" || series_id == "JTSJOL" then
    if truthy yoy_change && yoy_change.getD 0 > 2 then 8/10
    else if truthy yoy_change && yoy_change.getD 0 > 0 then 6/10
    else 3/10
  else if series_id == "CPIAUCSL" || series_id == "CPILFESL" ||
      series_id == "PCEPI" || series_id == "PCEPILFE" then
    if truthy yoy_change then
      let y := yoy_change.getD 0
      if 3/2 ≤ y ∧ y ≤ 5/2 then 9/10
      else if 1 ≤ y ∧ y ≤ 3 then 7/10
      else if y < 0 then 2/10
      else 4/10
    else 1/2
  else if series_id == "GDPC1" then
    if truthy yoy_change && yoy_change.getD 0 > 3 then 9/10
    else if truthy yoy_change && yoy_change.getD 0 > 1 then 7/10
    else if truthy yoy_change && yoy_change.getD 0 > 0 then 1/2
    else 2/10
  else
    if ten_year_avg * (11/10) < current_value then 7/10
    else if ten_year_avg * (9/10) < current_value then 6/10
    else 4/10

/-- Outcome of one `update_indicator_data` call: whether a FRED fetch was
issued and the boolean the function returns. -/
structure SyncOutcome where
  fetched : Bool
  success : Bool
deriving DecidableEq, Repr

/-- Embeds the control flow of `update_indicator_data` (src/app.py
lines 434-501). Timestamps are in seconds; `meta` is the stored
`last_updated` timestamp when an `api_metadata` row exists; `fetchSuccess`
abstracts the `success` field of the `fetch_fred_data` result. The 12-hour
staleness gate is `now - last_updated < 43200` seconds. -/
def update_indicator_data (force_update : Bool) (meta : Option ℚ) (now : ℚ)
    (fetchSuccess : Bool) : SyncOutcome :=
  match meta with
  | some last_updated =>
    if force_update = false ∧ now - last_updated < 43200 then ⟨false, true⟩
    else ⟨true, fetchSuccess⟩
  | none => ⟨true, fetchSuccess⟩

/-- One call through the `rate_limit(calls=120, period=60)` wrapper
(src/app.py lines 340-358). `callsMade` is the decorator's timestamp list
(oldest first) and `now` the arrival time in seconds. Returns the new list
and the sleep performed before the wrapped call runs; the wrapped call
therefore executes at `now + sleep`. After a positive sleep the code clears
the whole list and then appends the pre-sleep `now`. -/
def rateLimitStep (callsMade : List ℚ) (now : ℚ) : List ℚ × ℚ :=
  let pruned := callsMade.filter (fun t => now - t < 60)
  if 120 ≤ pruned.length then
    let sleepTime := 60 - (now - pruned.headD 0)
    if 0 < sleepTime then ([now], sleepTime)
    else (pruned ++ [now], 0)
  else (pruned ++ [now], 0)

/-- Execution times of a sequence of calls entering the rate limiter at the
given arrival times, starting from the given timestamp list. -/
def rateLimitRun (callsMade : List ℚ) : List ℚ → List ℚ
  | [] => []
  | now :: rest =>
    (now + (rateLimitStep callsMade now).2) ::
      rateLimitRun (rateLimitStep callsMade now).1 rest

/-- The timestamp list after a sequence of calls. -/
def rateLimitStates (callsMade : List ℚ) : List ℚ → List ℚ
  | [] => callsMade
  | now :: rest => rateLimitStates (rateLimitStep callsMade now).1 rest

/-- Delete the row with the given `(series_id, date)` key, as SQLite's
`INSERT OR REPLACE` under the `UNIQUE(series_id, date)` constraint does
before inserting. -/
def deleteKey (store : List Row) (sid : String) (d : Date) : List Row :=
  store.filter (fun r => !(r.sid == sid && r.date == d))

/-- `INSERT OR REPLACE INTO indicator_data (series_id, date, value)` for one
observation (src/app.py lines 469-472): the conflicting row, if any, is
removed and the new row appended. -/
def upsertOne (store : List Row) (sid : String) (d : Date) (v : ℚ) : List Row :=
  deleteKey store sid d ++ [⟨sid, d, v⟩]

/-- The observation-storing loop of `update_indicator_data` (src/app.py
lines 464-476): upsert each `(date, value)` pair in order. Rows with the
missing-value marker are dropped before this point and do not appear in the
input list. -/
def upsertObservations (store : List Row) (sid : String) :
    List (Date × ℚ) → List Row
  | [] => store
  | (d, v) :: rest => upsertObservations (upsertOne store sid d v) sid rest

/-- Embeds `get_indicator_data` with no `days_back` bound (src/app.py
lines 503-525): `SELECT date, value FROM indicator_data WHERE series_id = ?
ORDER BY date`. ISO date strings sort chronologically, embedded by sorting
on the civil day number. -/
def queryObservations (store : List Row) (sid : String) : List (Date × ℚ) :=
  List.insertionSort (fun a b => toDays a.1 ≤ toDays b.1)
    ((store.filter (fun r => r.sid == sid)).map (fun r => (r.date, r.value)))

/-- Canonical form of an upserted observation list: one row per date, keeping
the value of the last occurrence, in order of last occurrence. Used to
characterize `upsertObservations`. -/
def canon (sid : String) : List (Date × ℚ) → List Row
  | [] => []
  | (d, v) :: rest =>
    if d ∈ rest.map Prod.fst then canon sid rest
    else ⟨sid, d, v⟩ :: canon sid rest

/-- One row of the `recent_updates_cache` table. The JSON round-trip through
`cache_data` is modeled as the identity, so the column holds the decoded
payload directly. -/
structure Snapshot (α : Type) where
  id : Nat
  cache_data : List α
  created_at : ℚ
deriving DecidableEq, Repr

/-- `SELECT ... FROM recent_updates_cache ORDER BY created_at DESC LIMIT 1`:
some row with the largest `created_at` (the first such row in table order). -/
def latestSnapshot {α : Type} (l : List (Snapshot α)) : Option (Snapshot α) :=
  pickMin (fun s => -s.created_at) l none

/-- `SELECT id FROM recent_updates_cache ORDER BY created_at DESC LIMIT 5`:
ids of the five most recent snapshots. -/
def top5Ids {α : Type} (l : List (Snapshot α)) : List Nat :=
  ((List.insertionSort (fun a b : Snapshot α => b.created_at ≤ a.created_at) l).take 5).map
    Snapshot.id

/-- Embeds `save_recent_updates_cache` (src/app.py lines 1060-1088): first
delete every row whose id is not among the five most recent, then insert the
new snapshot with `created_at = now`. -/
def save_recent_updates_cache {α : Type} (l : List (Snapshot α)) (newId : Nat)
    (payload : List α) (now : ℚ) : List (Snapshot α) :=
  l.filter (fun s => decide (s.id ∈ top5Ids l)) ++ [⟨newId, payload, now⟩]

/-- Embeds `get_cached_recent_updates` (src/app.py lines 1027-1058): the
payload of the latest snapshot if it is less than 12 hours (43200 seconds)
old, else `none`. -/
def get_cached_recent_updates {α : Type} (l : List (Snapshot α)) (now : ℚ) :
    Option (List α) :=
  match latestSnapshot l with
  | none => none
  | some s => if now - s.created_at < 43200 then some s.cache_data else none

/-- Embeds `get_recent_updates_with_cache` (src/app.py lines 1090-1135).
`recompute` abstracts `get_recent_updates_from_fred`; `Except.error` is that
call raising. On an error the fallback reads the latest snapshot regardless
of age and returns `[]` only when the table is empty. -/
def get_recent_updates_with_cache {α : Type} (l : List (Snapshot α)) (now : ℚ)
    (recompute : Except Unit (List α)) : List α :=
  match get_cached_recent_updates l now with
  | some d => d
  | none =>
    match recompute with
    | Except.ok fresh => fresh
    | Except.error _ =>
      match latestSnapshot l with
      | some s => s.cache_data
      | none => []

/-! ### Properties of the minimum selector -/

theorem pickMin_spec {α β : Type} [LinearOrder β] (f : α → β) :
    ∀ (l : List α) (acc : Option α) (r : α), pickMin f l acc = some r →
      (r ∈ l ∨ acc = some r) ∧ (∀ x ∈ l, f r ≤ f x) ∧
        (∀ b, acc = some b → f r ≤ f b) := by
  intro l
  induction l with
  | nil =>
    intro acc r h
    simp only [pickMin] at h
    refine ⟨Or.inr h, by simp, fun b hb => ?_⟩
    rw [h] at hb
    cases hb
    exact le_refl _
  | cons a l ih =>
    intro acc r h
    cases acc with
    | none =>
      simp only [pickMin, pickStep] at h
      obtain ⟨hmem, hmin, hacc⟩ := ih (some a) r h
      refine ⟨?_, ?_, ?_⟩
      · rcases hmem with hm | hm
        · exact Or.inl (List.mem_cons_of_mem _ hm)
        · cases hm
          exact Or.inl (List.mem_cons_self _ _)
      · intro x hx
        rcases List.mem_cons.mp hx with rfl | hx
        · exact hacc _ rfl
        · exact hmin x hx
      · intro b hb
        exact Option.noConfusion hb
    | some b0 =>
      simp only [pickMin, pickStep] at h
      by_cases hc : f a < f b0
      · rw [if_pos hc] at h
        obtain ⟨hmem, hmin, hacc⟩ := ih (some a) r h
        refine ⟨?_, ?_, ?_⟩
        · rcases hmem with hm | hm
          · exact Or.inl (List.mem_cons_of_mem _ hm)
          · cases hm
            exact Or.inl (List.mem_cons_self _ _)
        · intro x hx
          rcases List.mem_cons.mp hx with rfl | hx
          · exact hacc _ rfl
          · exact hmin x hx
        · intro b hb
          cases hb
          exact (hacc a rfl).trans hc.le
      · rw [if_neg hc] at h
        obtain ⟨hmem, hmin, hacc⟩ := ih (some b0) r h
        refine ⟨?_, ?_, ?_⟩
        · rcases hmem with hm | hm
          · exact Or.inl (List.mem_cons_of_mem _ hm)
          · exact Or.inr hm
        · intro x hx
          rcases List.mem_cons.mp hx with rfl | hx
          · exact (hacc b0 rfl).trans (not_lt.mp hc)
          · exact hmin x hx
        · intro b hb
          cases hb
          exact hacc _ rfl

theorem pickMin_some_acc {α β : Type} [LinearOrder β] (f : α → β) :
    ∀ (l : List α) (b : α), pickMin f l (some b) ≠ none := by
  intro l
  induction l with
  | nil =>
    intro b h
    simp [pickMin] at h
  | cons a l ih =>
    intro b h
    simp only [pickMin, pickStep] at h
    by_cases hc : f a < f b
    · rw [if_pos hc] at h
      exact ih a h
    · rw [if_neg hc] at h
      exact ih b h

theorem pickMin_none_iff {α β : Type} [LinearOrder β] (f : α → β)
    (l : List α) : pickMin f l none = none ↔ l = [] := by
  cases l with
  | nil => simp [pickMin]
  | cons a l =>
    simp only [pickMin]
    constructor
    · intro h
      exact absurd h (pickMin_some_acc f l a)
    · intro h
      exact List.noConfusion h

/-! ### Properties of the windowed nearest-date lookup -/

theorem queryNearest_spec (store : List Row) (sid : String) (target : Int)
    (r : Row) (h : queryNearest store sid target = some r) :
    r ∈ store ∧ r.sid = sid ∧ distTo target r.date ≤ 15 ∧
      ∀ x ∈ store, x.sid = sid → distTo target x.date ≤ 15 →
        distTo target r.date ≤ distTo target x.date := by
  obtain ⟨hmem, hmin, -⟩ := pickMin_spec _ _ _ _ h
  rcases hmem with hm | hm
  · have hm2 := List.mem_filter.mp hm
    have hw := hm2.2
    simp only [inWindow, Bool.and_eq_true, beq_iff_eq, decide_eq_true_eq] at hw
    refine ⟨hm2.1, hw.1, hw.2, ?_⟩
    intro x hx hxs hxd
    refine hmin x (List.mem_filter.mpr ⟨hx, ?_⟩)
    simp [inWindow, hxs, hxd]
  · exact Option.noConfusion hm

theorem queryNearest_none_iff (store : List Row) (sid : String) (target : Int) :
    queryNearest store sid target = none ↔
      ∀ x ∈ store, x.sid = sid → ¬ distTo target x.date ≤ 15 := by
  unfold queryNearest
  rw [pickMin_none_iff, List.filter_eq_nil_iff]
  simp [inWindow, not_and]

/-! ### Properties of the rate limiter -/

theorem filter_replicate_recent (k : Nat) (t now : ℚ) (h : now - t < 60) :
    (List.replicate k t).filter (fun x => decide (now - x < 60)) =
      List.replicate k t := by
  induction k with
  | zero => rfl
  | succ k ih => simp [List.replicate_succ, List.filter_cons, h, ih]

theorem rateLimitStep_unsaturated (k : Nat) (t now : ℚ) (hk : k < 120)
    (h : now - t < 60) :
    rateLimitStep (List.replicate k t) now = (List.replicate k t ++ [now], 0) := by
  unfold rateLimitStep
  rw [filter_replicate_recent k t now h]
  simp only [List.length_replicate]
  rw [if_neg (by omega)]

theorem rateLimitStep_saturated (t now : ℚ) (h : now - t < 60) :
    rateLimitStep (List.replicate 120 t) now = ([now], 60 - (now - t)) := by
  unfold rateLimitStep
  rw [filter_replicate_recent 120 t now h]
  simp only [List.length_replicate]
  rw [if_pos (le_refl 120)]
  have hd : (List.replicate 120 t).headD 0 = t := rfl
  rw [hd, if_pos (by linarith)]

theorem rateLimitRun_replicate (m : Nat) :
    ∀ (k : Nat) (t : ℚ), k + m ≤ 120 →
      rateLimitRun (List.replicate k t) (List.replicate m t) = List.replicate m t ∧
        rateLimitStates (List.replicate k t) (List.replicate m t) =
          List.replicate (k + m) t := by
  induction m with
  | zero =>
    intro k t _
    simp [rateLimitRun, rateLimitStates]
  | succ m ih =>
    intro k t hkm
    have hstep := rateLimitStep_unsaturated k t t (by omega) (by norm_num)
    have hrep : List.replicate k t ++ [t] = List.replicate (k + 1) t :=
      (List.replicate_succ' k t).symm
    obtain ⟨ihrun, ihstates⟩ := ih (k + 1) t (by omega)
    constructor
    · rw [List.replicate_succ]
      simp only [rateLimitRun, hstep, hrep]
      rw [ihrun, add_zero]
    · rw [List.replicate_succ]
      simp only [rateLimitStates, hstep, hrep]
      rw [ihstates]
      congr 1
      omega

theorem rateLimitRun_append (l₁ l₂ : List ℚ) :
    ∀ s : List ℚ, rateLimitRun s (l₁ ++ l₂) =
      rateLimitRun s l₁ ++ rateLimitRun (rateLimitStates s l₁) l₂ := by
  induction l₁ with
  | nil => intro s; simp [rateLimitRun, rateLimitStates]
  | cons a l ih =>
    intro s
    simp only [List.cons_append, rateLimitRun, rateLimitStates, List.append_eq]
    rw [ih]

theorem rateLimitStates_append (l₁ l₂ : List ℚ) :
    ∀ s : List ℚ, rateLimitStates s (l₁ ++ l₂) =
      rateLimitStates (rateLimitStates s l₁) l₂ := by
  induction l₁ with
  | nil => intro s; simp [rateLimitStates]
  | cons a l ih =>
    intro s
    simp only [List.cons_append, rateLimitStates, List.append_eq]
    rw [ih]

/-- Full execution trace of the counterexample run: 121 calls arriving at
time 0 followed by 120 calls arriving at time 60. The 121st call sleeps
until time 60, the limiter then clears its window and records the stale
pre-sleep timestamp, and the 120 subsequent calls all execute at time 60 as
well. -/
theorem rateLimitRun_burst :
    rateLimitRun [] (List.replicate 121 (0 : ℚ) ++ List.replicate 120 60) =
      List.replicate 120 (0 : ℚ) ++ List.replicate 121 60 := by
  have h1 : List.replicate 121 (0 : ℚ) = List.replicate 120 0 ++ [0] :=
    List.replicate_succ' 120 0
  obtain ⟨hrun0, hstates0⟩ := rateLimitRun_replicate 120 0 (0 : ℚ) (by norm_num)
  simp only [Nat.zero_add, List.replicate_zero] at hrun0 hstates0
  have hsat := rateLimitStep_saturated (0 : ℚ) 0 (by norm_num)
  have hrunA : rateLimitRun (List.replicate 120 (0 : ℚ)) [0] = [60] := by
    simp only [rateLimitRun, hsat]
    norm_num
  have hstatesA : rateLimitStates (List.replicate 120 (0 : ℚ)) [0] = [0] := by
    simp only [rateLimitStates, hsat]
  have hA : rateLimitRun [] (List.replicate 121 (0 : ℚ)) =
      List.replicate 120 0 ++ [60] := by
    rw [h1, rateLimitRun_append, hrun0, hstates0, hrunA]
  have hS : rateLimitStates [] (List.replicate 121 (0 : ℚ)) = [0] := by
    rw [h1, rateLimitStates_append, hstates0, hstatesA]
  have hstep1 : rateLimitStep [(0 : ℚ)] 60 = ([60], 0) := by
    unfold rateLimitStep
    norm_num
  obtain ⟨hrun1, -⟩ := rateLimitRun_replicate 119 1 (60 : ℚ) (by norm_num)
  have hcons : ∀ (s : List ℚ) (now : ℚ) (rest : List ℚ),
      rateLimitRun s (now :: rest) =
        (now + (rateLimitStep s now).2) ::
          rateLimitRun (rateLimitStep s now).1 rest := fun _ _ _ => rfl
  have hB : rateLimitRun [(0 : ℚ)] (List.replicate 120 60) =
      List.replicate 120 60 := by
    rw [List.replicate_succ, hcons, hstep1]
    show ((60 : ℚ) + 0) :: rateLimitRun [60] (List.replicate 119 60) = _
    rw [show List.replicate 1 (60 : ℚ) = [60] from rfl] at hrun1
    rw [hrun1, add_zero, ← List.replicate_succ]
  rw [rateLimitRun_append, hA, hS, hB, List.append_assoc]
  rfl

/-! ### Properties of observation upserts -/

theorem canon_mem (sid : String) :
    ∀ (l : List (Date × ℚ)) (r : Row), r ∈ canon sid l →
      r.sid = sid ∧ r.date ∈ l.map Prod.fst := by
  intro l
  induction l with
  | nil =>
    intro r hr
    simp [canon] at hr
  | cons p rest ih =>
    obtain ⟨d, v⟩ := p
    intro r hr
    by_cases hd : d ∈ rest.map Prod.fst
    · rw [canon, if_pos hd] at hr
      obtain ⟨h1, h2⟩ := ih r hr
      exact ⟨h1, by simp [h2]⟩
    · rw [canon, if_neg hd] at hr
      rcases List.mem_cons.mp hr with rfl | hr
      · exact ⟨rfl, by simp⟩
      · obtain ⟨h1, h2⟩ := ih r hr
        exact ⟨h1, by simp [h2]⟩

theorem upsert_eq (sid : String) :
    ∀ (l : List (Date × ℚ)) (s : List Row),
      upsertObservations s sid l =
        s.filter (fun r => !(r.sid == sid && decide (r.date ∈ l.map Prod.fst)))
          ++ canon sid l := by
  intro l
  induction l with
  | nil =>
    intro s
    show s = _
    rw [canon]
    have hall : ∀ r ∈ s,
        (!(r.sid == sid && decide (r.date ∈ ([] : List (Date × ℚ)).map Prod.fst)))
          = true := by
      intro r _
      simp
    rw [List.filter_eq_self.mpr hall, List.append_nil]
  | cons p rest ih =>
    obtain ⟨d, v⟩ := p
    intro s
    show upsertObservations (upsertOne s sid d v) sid rest = _
    rw [ih]
    unfold upsertOne deleteKey
    rw [List.filter_append, List.filter_filter]
    have hpt : ∀ r ∈ s,
        ((!(r.sid == sid && decide (r.date ∈ rest.map Prod.fst))) &&
            (!(r.sid == sid && r.date == d)))
          = !(r.sid == sid && decide (r.date ∈ ((d, v) :: rest).map Prod.fst)) := by
      intro r _
      by_cases h1 : r.sid = sid
      · by_cases h2 : r.date = d
        · simp [h1, h2]
        · by_cases h3 : r.date ∈ rest.map Prod.fst <;> simp [h1, h2, h3]
      · have hb : (r.sid == sid) = false := by simp [h1]
        simp [hb]
    rw [List.filter_congr hpt]
    by_cases hd : d ∈ rest.map Prod.fst
    · have hone : List.filter
          (fun r : Row => !(r.sid == sid && decide (r.date ∈ rest.map Prod.fst)))
          [⟨sid, d, v⟩] = [] := by
        simp [hd]
      rw [hone, canon, if_pos hd, List.append_nil]
    · have hone : List.filter
          (fun r : Row => !(r.sid == sid && decide (r.date ∈ rest.map Prod.fst)))
          [⟨sid, d, v⟩] = [⟨sid, d, v⟩] := by
        simp [hd]
      rw [hone, canon, if_neg hd, List.append_assoc]
      rfl

theorem upsert_idempotent (sid : String) (l : List (Date × ℚ)) (s : List Row) :
    upsertObservations (upsertObservations s sid l) sid l =
      upsertObservations s sid l := by
  rw [upsert_eq, upsert_eq sid l s, List.filter_append, List.filter_filter]
  have h1 : s.filter (fun r : Row =>
        (!(r.sid == sid && decide (r.date ∈ l.map Prod.fst))) &&
          (!(r.sid == sid && decide (r.date ∈ l.map Prod.fst))))
      = s.filter (fun r : Row => !(r.sid == sid && decide (r.date ∈ l.map Prod.fst))) :=
    List.filter_congr (by intro a _; rw [Bool.and_self])
  have h2 : (canon sid l).filter
      (fun r : Row => !(r.sid == sid && decide (r.date ∈ l.map Prod.fst))) = [] := by
    rw [List.filter_eq_nil_iff]
    intro r hr
    obtain ⟨hs, hd⟩ := canon_mem sid l r hr
    simp [hs, hd]
  rw [h1, h2, List.append_nil]

/-! ### Properties of the snapshot cache -/

theorem latestSnapshot_spec {α : Type} (l : List (Snapshot α)) (s : Snapshot α)
    (h : latestSnapshot l = some s) :
    s ∈ l ∧ ∀ t ∈ l, t.created_at ≤ s.created_at := by
  obtain ⟨hmem, hmin, -⟩ := pickMin_spec _ _ _ _ h
  rcases hmem with hm | hm
  · refine ⟨hm, fun t ht => ?_⟩
    have := hmin t ht
    simpa using this
  · exact Option.noConfusion hm

theorem latestSnapshot_none_iff {α : Type} (l : List (Snapshot α)) :
    latestSnapshot l = none ↔ l = [] :=
  pickMin_none_iff _ l

/-- In a list sorted by descending `created_at`, an element of the first `n`
entries has fewer than `n` entries strictly newer than it. -/
theorem countP_newer_of_mem_take {α : Type} :
    ∀ (L : List (Snapshot α)) (n : Nat) (s : Snapshot α),
      List.Sorted (fun a b : Snapshot α => b.created_at ≤ a.created_at) L →
      s ∈ L.take n →
      L.countP (fun u => decide (s.created_at < u.created_at)) ≤ n - 1 := by
  intro L
  induction L with
  | nil =>
    intro n s _ hs
    simp at hs
  | cons x tl ih =>
    intro n s hsort hmem
    cases n with
    | zero => simp at hmem
    | succ k =>
      rw [List.take_succ_cons] at hmem
      have hhead : ∀ u ∈ tl, u.created_at ≤ x.created_at :=
        List.rel_of_sorted_cons hsort
      have htl : List.Sorted (fun a b : Snapshot α => b.created_at ≤ a.created_at) tl :=
        hsort.of_cons
      rcases List.mem_cons.mp hmem with rfl | hmem2
      · have hz : tl.countP (fun u => decide (s.created_at < u.created_at)) = 0 := by
          rw [List.countP_eq_zero]
          intro u hu
          simp only [decide_eq_true_eq]
          exact not_lt.mpr (hhead u hu)
        rw [List.countP_cons, hz]
        simp
      · have hbound := ih k s htl hmem2
        have hk1 : 1 ≤ k := by
          rcases Nat.eq_zero_or_pos k with rfl | hk
          · simp at hmem2
          · exact hk
        rw [List.countP_cons]
        have hle : (if decide (s.created_at < x.created_at) = true then 1 else 0) ≤ 1 := by
          split <;> omega
        omega

/-- A snapshot kept by the deletion query (id among the five most recent) is
itself one of the first five entries of the table sorted by descending
creation time, provided ids are unique. -/
theorem save_kept_mem_take {α : Type} (l : List (Snapshot α))
    (hids : (l.map Snapshot.id).Nodup) (s : Snapshot α) (hs : s ∈ l)
    (hid : s.id ∈ top5Ids l) :
    s ∈ (List.insertionSort (fun a b : Snapshot α => b.created_at ≤ a.created_at) l).take 5 := by
  unfold top5Ids at hid
  obtain ⟨u, hu, hueq⟩ := List.mem_map.mp hid
  have hul : u ∈ l :=
    (List.perm_insertionSort _ l).subset (List.take_subset _ _ hu)
  have heq : u = s := List.inj_on_of_nodup_map hids hul hs hueq
  rw [heq] at hu
  exact hu

theorem filter_replicate_all {p : ℚ → Bool} (k : Nat) (t : ℚ) :
    (List.replicate k t).filter p = if p t then List.replicate k t else [] := by
  induction k with
  | zero => simp
  | succ k ih =>
    by_cases hp : p t <;>
      simp [List.replicate_succ, List.filter_cons, hp, ih]

/-! ### Claim theorems -/

/-- C10: for every input data list containing fewer than 2 points,
`calculate_period_change` returns null for every format, period, and series
identifier, and the result does not depend on the store (no query is
issued). -/
theorem claim_C10 (store : List Row) (data : List DataPoint)
    (format_type period : String) (series_id : Option String)
    (h : data.length < 2) :
    calculate_period_change store data format_type period series_id = none := by
  unfold calculate_period_change
  rw [if_pos h]

theorem claim_C10_witness :
    ([⟨⟨2024, 1, 1⟩, 5⟩] : List DataPoint).length < 2 ∧
      calculate_period_change [⟨"UNRATE", ⟨2023, 1, 1⟩, 4⟩] [⟨⟨2024, 1, 1⟩, 5⟩]
        "number" "1Y" (some "UNRATE") = none :=
  ⟨by decide,
    claim_C10 [⟨"UNRATE", ⟨2023, 1, 1⟩, 4⟩] [⟨⟨2024, 1, 1⟩, 5⟩] "number" "1Y"
      (some "UNRATE") (by decide)⟩

/-- C6 counterexample: `format_value` on 1,250,000 with format "currency"
and unit "millions" does not return "$1.3B" (1,250,000 pre-scaled millions
crosses the 1,000,000 threshold and is rendered in trillions, and 1.25
rounds half-to-even to 1.2). -/
theorem claim_C6_counterexample :
    format_value (some 1250000) "currency" (some "millions") ≠ "$1.3B" := by
  decide

/-- C6 (amended): `format_value` applied to value 1,250,000 with format
"currency" and unit "millions" returns exactly the string "$1.2T". -/
theorem claim_C6 :
    format_value (some 1250000) "currency" (some "millions") = "$1.2T" := by
  decide

/-- C3: with force=false, stored metadata whose `last_synced` is strictly
less than 12 hours (43200 s) before now causes a skip reported as success
with no fetch; at 12 hours or more, with no metadata, or with force=true, a
fetch is issued. -/
theorem claim_C3 (meta : Option ℚ) (now t : ℚ) (fs : Bool) :
    (meta = some t → now - t < 43200 →
      update_indicator_data false meta now fs = ⟨false, true⟩) ∧
    (meta = some t → 43200 ≤ now - t →
      (update_indicator_data false meta now fs).fetched = true ∧
        (update_indicator_data false meta now fs).success = fs) ∧
    (update_indicator_data false none now fs).fetched = true ∧
    (update_indicator_data true meta now fs).fetched = true := by
  refine ⟨?_, ?_, ?_, ?_⟩
  · intro hm hlt
    subst hm
    unfold update_indicator_data
    dsimp only
    rw [if_pos ⟨rfl, hlt⟩]
  · intro hm hge
    subst hm
    unfold update_indicator_data
    dsimp only
    rw [if_neg (fun hc => absurd hc.2 (not_lt.mpr hge))]
    exact ⟨rfl, rfl⟩
  · rfl
  · cases meta with
    | none => rfl
    | some t0 =>
      unfold update_indicator_data
      dsimp only
      rw [if_neg (fun hc => Bool.noConfusion hc.1)]

theorem claim_C3_witness :
    (some (0 : ℚ) = some (0 : ℚ)) ∧ ((43199 : ℚ) - 0 < 43200) ∧
      ((43200 : ℚ) ≤ 43200 - 0) ∧
      update_indicator_data false (some 0) 43199 true = ⟨false, true⟩ ∧
      (update_indicator_data false (some 0) 43200 true).fetched = true ∧
      (update_indicator_data false none 43199 true).fetched = true ∧
      (update_indicator_data true (some 0) 43199 true).fetched = true :=
  ⟨rfl, by norm_num, by norm_num,
    (claim_C3 (some 0) 43199 0 true).1 rfl (by norm_num),
    ((claim_C3 (some 0) 43200 0 true).2.1 rfl (by norm_num)).1,
    (claim_C3 none 43199 0 true).2.2.1,
    (claim_C3 (some 0) 43199 0 true).2.2.2⟩

/-- C9: when the fresh recomputation raises, `get_recent_updates_with_cache`
returns the payload of the most recent stored snapshot regardless of its
age, and returns the empty list exactly when no snapshot exists. -/
theorem claim_C9 {α : Type} (l : List (Snapshot α)) (now : ℚ) :
    (∀ s, latestSnapshot l = some s →
      get_recent_updates_with_cache l now (Except.error ()) = s.cache_data ∧
        s ∈ l ∧ ∀ u ∈ l, u.created_at ≤ s.created_at) ∧
    (latestSnapshot l = none ↔ l = []) ∧
    (l = [] → get_recent_updates_with_cache l now (Except.error ()) = []) := by
  refine ⟨?_, latestSnapshot_none_iff l, ?_⟩
  · intro s hs
    obtain ⟨hmem, hmax⟩ := latestSnapshot_spec l s hs
    refine ⟨?_, hmem, hmax⟩
    unfold get_recent_updates_with_cache get_cached_recent_updates
    rw [hs]
    dsimp only
    by_cases hfresh : now - s.created_at < 43200
    · rw [if_pos hfresh]
    · rw [if_neg hfresh]
  · intro hl
    subst hl
    rfl

theorem claim_C9_witness :
    (latestSnapshot [⟨1, [(5 : ℚ)], 0⟩, ⟨2, [7], 10⟩] = some ⟨2, [7], 10⟩) ∧
      get_recent_updates_with_cache [⟨1, [(5 : ℚ)], 0⟩, ⟨2, [7], 10⟩] 1000000
        (Except.error ()) = [7] ∧
      (([] : List (Snapshot ℚ)) = [] →
        get_recent_updates_with_cache ([] : List (Snapshot ℚ)) 0
          (Except.error ()) = []) :=
  ⟨by decide,
    ((claim_C9 [⟨1, [(5 : ℚ)], 0⟩, ⟨2, [7], 10⟩] 1000000).1
      ⟨2, [7], 10⟩ (by decide)).1,
    (claim_C9 ([] : List (Snapshot ℚ)) 0).2.2⟩

/-- C7: upserting an identical observation list a second time leaves the
store's query results for that series unchanged, and upserting a revised
value for an existing (series, date) key leaves exactly one row for that key,
carrying the new value. -/
theorem claim_C7 :
    (∀ (s : List Row) (sid : String) (l : List (Date × ℚ)),
      queryObservations (upsertObservations (upsertObservations s sid l) sid l) sid
        = queryObservations (upsertObservations s sid l) sid) ∧
    (∀ (s : List Row) (sid : String) (d : Date) (vOld vNew : ℚ),
      (⟨sid, d, vOld⟩ : Row) ∈ s →
        (upsertObservations s sid [(d, vNew)]).countP
            (fun r => r.sid == sid && r.date == d) = 1 ∧
          ∀ r ∈ upsertObservations s sid [(d, vNew)],
            r.sid = sid → r.date = d → r.value = vNew) := by
  constructor
  · intro s sid l
    rw [upsert_idempotent]
  · intro s sid d vOld vNew _
    have hform : upsertObservations s sid [(d, vNew)] = upsertOne s sid d vNew := rfl
    rw [hform]
    unfold upsertOne deleteKey
    constructor
    · rw [List.countP_append]
      have h0 : (s.filter (fun r : Row => !(r.sid == sid && r.date == d))).countP
          (fun r : Row => r.sid == sid && r.date == d) = 0 := by
        rw [List.countP_eq_zero]
        intro r hr
        have := (List.mem_filter.mp hr).2
        simp only [Bool.not_eq_eq_eq_not, Bool.not_true] at this
        simp [this]
      rw [h0]
      simp
    · intro r hr hrs hrd
      rcases List.mem_append.mp hr with hr | hr
      · have := (List.mem_filter.mp hr).2
        simp [hrs, hrd] at this
      · rcases List.mem_singleton.mp hr with rfl
        rfl

theorem claim_C7_witness :
    ((⟨"UNRATE", ⟨2024, 1, 1⟩, 4⟩ : Row) ∈
        [(⟨"UNRATE", ⟨2024, 1, 1⟩, 4⟩ : Row), ⟨"PAYEMS", ⟨2024, 1, 1⟩, 9⟩]) ∧
      queryObservations
          (upsertObservations
            (upsertObservations
              [(⟨"UNRATE", ⟨2024, 1, 1⟩, 4⟩ : Row), ⟨"PAYEMS", ⟨2024, 1, 1⟩, 9⟩]
              "UNRATE" [(⟨2024, 1, 1⟩, 5), (⟨2024, 2, 1⟩, 6)])
            "UNRATE" [(⟨2024, 1, 1⟩, 5), (⟨2024, 2, 1⟩, 6)]) "UNRATE"
        = queryObservations
            (upsertObservations
              [(⟨"UNRATE", ⟨2024, 1, 1⟩, 4⟩ : Row), ⟨"PAYEMS", ⟨2024, 1, 1⟩, 9⟩]
              "UNRATE" [(⟨2024, 1, 1⟩, 5), (⟨2024, 2, 1⟩, 6)]) "UNRATE" ∧
      (upsertObservations
          [(⟨"UNRATE", ⟨2024, 1, 1⟩, 4⟩ : Row), ⟨"PAYEMS", ⟨2024, 1, 1⟩, 9⟩]
          "UNRATE" [(⟨2024, 1, 1⟩, 5)]).countP
          (fun r => r.sid == "UNRATE" && r.date == ⟨2024, 1, 1⟩) = 1 :=
  ⟨by decide,
    claim_C7.1 [⟨"UNRATE", ⟨2024, 1, 1⟩, 4⟩, ⟨"PAYEMS", ⟨2024, 1, 1⟩, 9⟩]
      "UNRATE" [(⟨2024, 1, 1⟩, 5), (⟨2024, 2, 1⟩, 6)],
    (claim_C7.2 [⟨"UNRATE", ⟨2024, 1, 1⟩, 4⟩, ⟨"PAYEMS", ⟨2024, 1, 1⟩, 9⟩]
      "UNRATE" ⟨2024, 1, 1⟩ 4 5 (by decide)).1⟩

/-- C8 counterexample: saving a new snapshot over a table that already holds
five snapshots leaves six rows, so the table does not contain at most the
five most recent snapshots counting the newly inserted one. -/
theorem claim_C8_counterexample :
    ¬ (save_recent_updates_cache (α := ℚ)
        [⟨1, [], 1⟩, ⟨2, [], 2⟩, ⟨3, [], 3⟩, ⟨4, [], 4⟩, ⟨5, [], 5⟩]
        6 [] 6).length ≤ 5 := by
  decide

/-- C8 (amended): after a save, the cache table holds the new snapshot plus
at most the five most recent previously stored snapshots (at most six rows
in total); every prior snapshot with five or more strictly newer prior
snapshots has been deleted. -/
theorem claim_C8 {α : Type} (l : List (Snapshot α)) (newId : Nat)
    (payload : List α) (now : ℚ) (hids : (l.map Snapshot.id).Nodup) :
    (save_recent_updates_cache l newId payload now).length ≤ 6 ∧
    (⟨newId, payload, now⟩ : Snapshot α) ∈ save_recent_updates_cache l newId payload now ∧
    ∀ s ∈ save_recent_updates_cache l newId payload now,
      s = ⟨newId, payload, now⟩ ∨
        (s ∈ l ∧ l.countP (fun u => decide (s.created_at < u.created_at)) ≤ 4) := by
  have hnodup : l.Nodup := List.Nodup.of_map _ hids
  haveI : IsTotal (Snapshot α) (fun a b => b.created_at ≤ a.created_at) :=
    ⟨fun a b => le_total b.created_at a.created_at⟩
  haveI : IsTrans (Snapshot α) (fun a b => b.created_at ≤ a.created_at) :=
    ⟨fun _ _ _ hab hbc => le_trans hbc hab⟩
  have hsorted := List.sorted_insertionSort
    (fun a b : Snapshot α => b.created_at ≤ a.created_at) l
  have hperm := List.perm_insertionSort
    (fun a b : Snapshot α => b.created_at ≤ a.created_at) l
  have hkept : ∀ s ∈ l.filter (fun u => decide (u.id ∈ top5Ids l)),
      s ∈ (List.insertionSort (fun a b : Snapshot α => b.created_at ≤ a.created_at)
        l).take 5 := by
    intro s hsf
    have hm := List.mem_filter.mp hsf
    exact save_kept_mem_take l hids s hm.1 (by simpa using hm.2)
  refine ⟨?_, ?_, ?_⟩
  · unfold save_recent_updates_cache
    rw [List.length_append]
    have hfn : (l.filter (fun u => decide (u.id ∈ top5Ids l))).Nodup :=
      List.Nodup.filter _ hnodup
    have hsub := List.subperm_of_subset hfn hkept
    have hlen := hsub.length_le
    have htake : ((List.insertionSort
        (fun a b : Snapshot α => b.created_at ≤ a.created_at) l).take 5).length ≤ 5 :=
      (List.length_take_le _ _)
    simp only [List.length_singleton]
    omega
  · unfold save_recent_updates_cache
    exact List.mem_append_right _ (List.mem_singleton.mpr rfl)
  · intro s hs
    unfold save_recent_updates_cache at hs
    rcases List.mem_append.mp hs with hs | hs
    · right
      have hm := List.mem_filter.mp hs
      refine ⟨hm.1, ?_⟩
      have htake := hkept s hs
      have hcount := countP_newer_of_mem_take _ 5 s hsorted htake
      have := (hperm.countP_eq (fun u => decide (s.created_at < u.created_at))).symm
      omega
    · left
      exact List.mem_singleton.mp hs

theorem claim_C8_witness :
    (([⟨1, [], 1⟩, ⟨2, [], 2⟩] : List (Snapshot ℚ)).map Snapshot.id).Nodup ∧
      (save_recent_updates_cache ([⟨1, [], 1⟩, ⟨2, [], 2⟩] : List (Snapshot ℚ))
          3 [] 3).length ≤ 6 ∧
      (⟨3, [], 3⟩ : Snapshot ℚ) ∈
        save_recent_updates_cache ([⟨1, [], 1⟩, ⟨2, [], 2⟩] : List (Snapshot ℚ)) 3 [] 3 :=
  ⟨by decide,
    (claim_C8 ([⟨1, [], 1⟩, ⟨2, [], 2⟩] : List (Snapshot ℚ)) 3 [] 3 (by decide)).1,
    (claim_C8 ([⟨1, [], 1⟩, ⟨2, [], 2⟩] : List (Snapshot ℚ)) 3 [] 3 (by decide)).2.1⟩

/-- C5 counterexample: in the run where 121 calls arrive at time 0 and 120
more arrive at time 60, the sixty-second span [60, 120] contains 121
admitted (executed) calls, exceeding the claimed bound of 120: the blocking
call clears the window and records its stale pre-sleep timestamp, so the
subsequent 120 calls pass immediately. -/
theorem claim_C5_counterexample :
    120 < ((rateLimitRun [] (List.replicate 121 (0 : ℚ) ++ List.replicate 120 60)).filter
        (fun x => decide (60 ≤ x ∧ x ≤ 120))).length := by
  rw [rateLimitRun_burst, List.filter_append, filter_replicate_all,
    filter_replicate_all]
  norm_num

/-- C5 (amended): 120 calls issued instantly all proceed without delay, and
a 121st call inside the same 60-second window sleeps `60 - (now - t)`
seconds, resuming exactly when the window's oldest call (at time `t`) ages
past 60 seconds; the trailing-window bound itself does not hold over later
calls (see the counterexample). -/
theorem claim_C5 (t now : ℚ) (h : now - t < 60) :
    rateLimitRun [] (List.replicate 120 t) = List.replicate 120 t ∧
    rateLimitStep (List.replicate 120 t) now = ([now], 60 - (now - t)) ∧
    now + (60 - (now - t)) = t + 60 := by
  refine ⟨?_, rateLimitStep_saturated t now h, by ring⟩
  have := (rateLimitRun_replicate 120 0 t (by norm_num)).1
  simpa using this

theorem claim_C5_witness :
    ((30 : ℚ) - 0 < 60) ∧
      (rateLimitRun [] (List.replicate 120 (0 : ℚ)) = List.replicate 120 0 ∧
        rateLimitStep (List.replicate 120 (0 : ℚ)) 30 = ([30], 60 - (30 - 0)) ∧
        (30 : ℚ) + (60 - (30 - 0)) = 0 + 60) :=
  ⟨by norm_num, claim_C5 0 30 (by norm_num)⟩

theorem daysInMonth_congr (y y2 : Int) (m : Nat) (hm : m ≠ 2) :
    daysInMonth y m = daysInMonth y2 m := by
  rcases m with _ | _ | _ | _ | _ | _ | _ | _ | _ | _ | _ | _ | _ | m
  all_goals first
    | rfl
    | exact absurd rfl hm

/-- C2 counterexample: an inflation-type indicator whose year-over-year
change is exactly 0 does not score 0.4 as the claim requires (Python
truthiness routes a 0.0 change to the missing-data score 0.5). -/
theorem claim_C2_counterexample :
    analyze_indicator_health "CPIAUCSL" 100 (some 0) 0 0 ≠ 4/10 := by
  decide

/-- C2 (amended): the unemployment bands hold as claimed (0.9 at or below
4.0, 0.6 at or below 6.0, else 0.2). For inflation-type indicators the
claimed bands hold for every nonzero defined year-over-year change y
(0.9 on [1.5, 2.5], 0.7 on [1.0, 3.0] outside that, 0.2 when negative,
0.4 otherwise), but y exactly 0 scores 0.5, not 0.4. -/
theorem claim_C2 :
    (∀ (v : ℚ) (y : Option ℚ) (t3 t10 : ℚ),
      (v ≤ 4 → analyze_indicator_health "UNRATE" v y t3 t10 = 9/10) ∧
      (4 < v → v ≤ 6 → analyze_indicator_health "UNRATE" v y t3 t10 = 6/10) ∧
      (6 < v → analyze_indicator_health "UNRATE" v y t3 t10 = 2/10)) ∧
    (∀ sid : String,
      sid = "CPIAUCSL" ∨ sid = "CPILFESL" ∨ sid = "PCEPI" ∨ sid = "PCEPILFE" →
      ∀ (v : ℚ) (y : ℚ) (t3 t10 : ℚ),
        (3/2 ≤ y → y ≤ 5/2 → analyze_indicator_health sid v (some y) t3 t10 = 9/10) ∧
        (1 ≤ y → y ≤ 3 → ¬(3/2 ≤ y ∧ y ≤ 5/2) →
          analyze_indicator_health sid v (some y) t3 t10 = 7/10) ∧
        (y < 0 → analyze_indicator_health sid v (some y) t3 t10 = 2/10) ∧
        (0 < y → ¬(1 ≤ y ∧ y ≤ 3) →
          analyze_indicator_health sid v (some y) t3 t10 = 4/10) ∧
        (y = 0 → analyze_indicator_health sid v (some y) t3 t10 = 1/2)) := by
  constructor
  · intro v y t3 t10
    refine ⟨?_, ?_, ?_⟩
    · intro h
      simp [analyze_indicator_health, h]
    · intro h1 h2
      simp [analyze_indicator_health, not_le.mpr h1, h2]
    · intro h
      have h4 : ¬ v ≤ 4 := not_le.mpr (lt_trans (by norm_num) h)
      simp [analyze_indicator_health, h4, not_le.mpr h]
  · intro sid hsid v y t3 t10
    refine ⟨?_, ?_, ?_, ?_, ?_⟩
    · intro h1 h2
      have hy0 : y ≠ 0 := by intro hy; rw [hy] at h1; norm_num at h1
      rcases hsid with rfl | rfl | rfl | rfl <;>
        simp [analyze_indicator_health, truthy, hy0, h1, h2]
    · intro h1 h2 h3
      have hy0 : y ≠ 0 := by intro hy; rw [hy] at h1; norm_num at h1
      rcases hsid with rfl | rfl | rfl | rfl <;>
        simp [analyze_indicator_health, truthy, hy0, h3, h1, h2]
    · intro h1
      have hy0 : y ≠ 0 := ne_of_lt h1
      have hn1 : ¬(3/2 ≤ y ∧ y ≤ 5/2) :=
        fun hc => absurd h1 (not_lt.mpr (le_trans (by norm_num) hc.1))
      have hn2 : ¬(1 ≤ y ∧ y ≤ 3) :=
        fun hc => absurd h1 (not_lt.mpr (le_trans (by norm_num) hc.1))
      rcases hsid with rfl | rfl | rfl | rfl <;>
        simp [analyze_indicator_health, truthy, hy0, hn1, hn2, h1]
    · intro h1 h2
      have hy0 : y ≠ 0 := ne_of_gt h1
      have hn1 : ¬(3/2 ≤ y ∧ y ≤ 5/2) :=
        fun hc => h2 ⟨le_trans (by norm_num) hc.1, le_trans hc.2 (by norm_num)⟩
      have hn3 : ¬ y < 0 := not_lt.mpr h1.le
      rcases hsid with rfl | rfl | rfl | rfl <;>
        simp [analyze_indicator_health, truthy, hy0, hn1, h2, hn3]
    · intro h1
      subst h1
      rcases hsid with rfl | rfl | rfl | rfl <;>
        simp [analyze_indicator_health, truthy]

theorem claim_C2_witness :
    ((39 : ℚ)/10 ≤ 4) ∧
      ("CPIAUCSL" = "CPIAUCSL" ∨ "CPIAUCSL" = "CPILFESL" ∨
        "CPIAUCSL" = "PCEPI" ∨ "CPIAUCSL" = "PCEPILFE") ∧
      ((3 : ℚ)/2 ≤ 2) ∧ ((2 : ℚ) ≤ 5/2) ∧ ((-1 : ℚ) < 0) ∧
      analyze_indicator_health "UNRATE" (39/10) none 0 0 = 9/10 ∧
      analyze_indicator_health "CPIAUCSL" 100 (some 2) 0 0 = 9/10 ∧
      analyze_indicator_health "CPIAUCSL" 100 (some (-1)) 0 0 = 2/10 ∧
      analyze_indicator_health "CPIAUCSL" 100 (some 0) 0 0 = 1/2 :=
  ⟨by norm_num, Or.inl rfl, by norm_num, by norm_num, by norm_num,
    (claim_C2.1 (39/10) none 0 0).1 (by norm_num),
    (claim_C2.2 "CPIAUCSL" (Or.inl rfl) 100 2 0 0).1 (by norm_num) (by norm_num),
    (claim_C2.2 "CPIAUCSL" (Or.inl rfl) 100 (-1) 0 0).2.2.1 (by norm_num),
    (claim_C2.2 "CPIAUCSL" (Or.inl rfl) 100 0 0 0).2.2.2.2 rfl⟩

/-- C4 counterexample: for current date 2024-02-29 with a stored observation
(2023-03-01) inside the tolerance window one year back, `calculate_yoy_change`
returns null rather than a defined change: `replace(year=2023)` raises and
the handler returns None, so no clamping occurs. -/
theorem claim_C4_counterexample :
    validDate ⟨2024, 2, 29⟩ = true ∧
      distTo (toDays ⟨2023, 2, 28⟩) ⟨2023, 3, 1⟩ ≤ 15 ∧
      calculate_yoy_change [⟨"GDPC1", ⟨2023, 3, 1⟩, 100⟩] ⟨2024, 2, 29⟩ 110
        (some "GDPC1") "number" = none := by
  refine ⟨by decide, by decide, by decide⟩

/-- C4 (amended): for every valid current date other than Feb 29, the
year-over-year target is the same calendar day exactly one year earlier; for
a Feb 29 current date the year subtraction fails (Python ValueError) and
`calculate_yoy_change` returns null regardless of the store, with no
clamping. -/
theorem claim_C4 :
    (∀ d : Date, validDate d = true → ¬(d.month = 2 ∧ d.day = 29) →
      replaceYear d (d.year - 1) = some ⟨d.year - 1, d.month, d.day⟩) ∧
    (∀ (store : List Row) (y : Int) (v : ℚ) (sid fmt : String),
      validDate ⟨y, 2, 29⟩ = true →
      calculate_yoy_change store ⟨y, 2, 29⟩ v (some sid) fmt = none) := by
  constructor
  · intro d hval hno
    have hv2 : validDate ⟨d.year - 1, d.month, d.day⟩ = true := by
      unfold validDate at hval ⊢
      simp only [Bool.and_eq_true, decide_eq_true_eq] at hval ⊢
      obtain ⟨⟨⟨h1, h2⟩, h3⟩, h4⟩ := hval
      refine ⟨⟨⟨h1, h2⟩, h3⟩, ?_⟩
      by_cases hm2 : d.month = 2
      · have hd29 : d.day ≠ 29 := fun hc => hno ⟨hm2, hc⟩
        rw [hm2] at h4 ⊢
        have hle : daysInMonth d.year 2 ≤ 29 := by
          show (if isLeapYear d.year then 29 else 28) ≤ 29
          split <;> norm_num
        have h28 : 28 ≤ daysInMonth (d.year - 1) 2 := by
          show 28 ≤ (if isLeapYear (d.year - 1) then 29 else 28)
          split <;> norm_num
        omega
      · rw [daysInMonth_congr (d.year - 1) d.year d.month hm2]
        exact h4
    unfold replaceYear
    rw [if_pos hv2]
  · intro store y v sid fmt hval
    have hleap : isLeapYear y = true := by
      unfold validDate at hval
      simp only [Bool.and_eq_true, decide_eq_true_eq] at hval
      have h29 := hval.2
      by_contra hl
      have hl2 : isLeapYear y = false := by
        revert hl
        cases isLeapYear y <;> simp
      have hdm : daysInMonth y 2 = 28 := by
        show (if isLeapYear y then 29 else 28) = 28
        simp [hl2]
      omega
    have hmod : y % 4 = 0 := by
      unfold isLeapYear at hleap
      simp only [Bool.and_eq_true, beq_iff_eq] at hleap
      exact hleap.1
    have hnl : isLeapYear (y - 1) = false := by
      unfold isLeapYear
      have h3 : (y - 1) % 4 = 3 := by omega
      simp [h3]
    have hrep : replaceYear ⟨y, 2, 29⟩ (y - 1) = none := by
      unfold replaceYear
      rw [if_neg]
      intro hc
      unfold validDate at hc
      simp only [Bool.and_eq_true, decide_eq_true_eq] at hc
      have h29 := hc.2
      have hdm : daysInMonth (y - 1) 2 = 28 := by
        show (if isLeapYear (y - 1) then 29 else 28) = 28
        simp [hnl]
      omega
    unfold calculate_yoy_change
    rw [if_neg (not_not_intro hval)]
    rw [hrep]

theorem claim_C4_witness :
    (validDate ⟨2024, 3, 15⟩ = true) ∧ ¬((3 : Nat) = 2 ∧ (15 : Nat) = 29) ∧
      (validDate ⟨2024, 2, 29⟩ = true) ∧
      replaceYear ⟨2024, 3, 15⟩ (2024 - 1) = some ⟨2024 - 1, 3, 15⟩ ∧
      calculate_yoy_change [⟨"UNRATE", ⟨2023, 2, 27⟩, 4⟩] ⟨2024, 2, 29⟩ 5
        (some "UNRATE") "percentage" = none :=
  ⟨by decide, by decide, by decide,
    claim_C4.1 ⟨2024, 3, 15⟩ (by decide) (by decide),
    claim_C4.2 [⟨"UNRATE", ⟨2023, 2, 27⟩, 4⟩] 2024 5 "UNRATE" "percentage" (by decide)⟩

/-- C1 counterexample: for the fixed-period path with a series id supplied,
when no stored observation lies in the ±15-day window around the target
date, the change is not null: `calculate_period_change` falls back to
comparing the first and last points of the supplied data
((110 - 100) / 100 × 100 = 10). -/
theorem claim_C1_counterexample :
    queryNearest [⟨"GDPC1", ⟨2020, 1, 1⟩, 100⟩, ⟨"GDPC1", ⟨2023, 1, 1⟩, 110⟩]
        "GDPC1" (toDays ⟨2023, 1, 1⟩ - 365) = none ∧
      calculate_period_change
        [⟨"GDPC1", ⟨2020, 1, 1⟩, 100⟩, ⟨"GDPC1", ⟨2023, 1, 1⟩, 110⟩]
        [⟨⟨2020, 1, 1⟩, 100⟩, ⟨⟨2023, 1, 1⟩, 110⟩] "number" "1Y" (some "GDPC1")
        = some 10 := by
  refine ⟨by decide, by decide⟩

/-- C1 (amended): the windowed lookup returns a stored observation of the
series within ±15 days of the target minimizing the day distance, or none
exactly when no such observation exists. When it returns an observation with
value h, all three calculators compute `current - h` for "percentage" format
and `(current - h)/|h| × 100` otherwise, null when h = 0. When it returns
none, year-over-year and quarter-over-quarter changes are null, but the
fixed-period path instead falls back to comparing the first and last points
of the supplied data with the same format rule. -/
theorem claim_C1 :
    (∀ cur h : ℚ, changeRule "percentage" cur h = some (cur - h)) ∧
    (∀ (fmt : String) (cur h : ℚ), fmt ≠ "percentage" → h ≠ 0 →
      changeRule fmt cur h = some ((cur - h) / |h| * 100)) ∧
    (∀ (fmt : String) (cur : ℚ), fmt ≠ "percentage" → changeRule fmt cur 0 = none) ∧
    (∀ (store : List Row) (sid : String) (target : Int) (r : Row),
      queryNearest store sid target = some r →
        r ∈ store ∧ r.sid = sid ∧ distTo target r.date ≤ 15 ∧
          ∀ x ∈ store, x.sid = sid → distTo target x.date ≤ 15 →
            distTo target r.date ≤ distTo target x.date) ∧
    (∀ (store : List Row) (sid : String) (target : Int),
      queryNearest store sid target = none ↔
        ∀ x ∈ store, x.sid = sid → ¬ distTo target x.date ≤ 15) ∧
    (∀ (store : List Row) (d : Date) (cur : ℚ) (sid fmt : String) (target : Date),
      validDate d = true →
      replaceYear d (d.year - 1) = some target →
      (∀ r, queryNearest store sid (toDays target) = some r →
        calculate_yoy_change store d cur (some sid) fmt = changeRule fmt cur r.value) ∧
      (queryNearest store sid (toDays target) = none →
        calculate_yoy_change store d cur (some sid) fmt = none)) ∧
    (∀ (store : List Row) (d : Date) (cur : ℚ) (sid fmt : String),
      validDate d = true →
      (∀ r, queryNearest store sid (toDays d - 90) = some r →
        calculate_qoq_change store d cur (some sid) fmt = changeRule fmt cur r.value) ∧
      (queryNearest store sid (toDays d - 90) = none →
        calculate_qoq_change store d cur (some sid) fmt = none)) ∧
    (∀ (store : List Row) (data : List DataPoint) (fmt period sid : String)
        (latest first : DataPoint) (pd : Int),
      2 ≤ data.length →
      data.getLast? = some latest →
      data.head? = some first →
      periodDays period = some pd →
      (∀ r, queryNearest store sid (toDays latest.date - pd) = some r →
        calculate_period_change store data fmt period (some sid)
          = changeRule fmt latest.value r.value) ∧
      (queryNearest store sid (toDays latest.date - pd) = none →
        calculate_period_change store data fmt period (some sid)
          = changeRule fmt latest.value first.value)) := by
  refine ⟨?_, ?_, ?_, queryNearest_spec, queryNearest_none_iff, ?_, ?_, ?_⟩
  · intro cur h
    simp [changeRule]
  · intro fmt cur h hf hh
    simp [changeRule, hf, hh]
  · intro fmt cur hf
    simp [changeRule, hf]
  · intro store d cur sid fmt target hvd hrep
    constructor
    · intro r hq
      unfold calculate_yoy_change
      rw [if_neg (not_not_intro hvd)]
      simp only [hrep, hq]
    · intro hq
      unfold calculate_yoy_change
      rw [if_neg (not_not_intro hvd)]
      simp only [hrep, hq]
  · intro store d cur sid fmt hvd
    constructor
    · intro r hq
      unfold calculate_qoq_change
      rw [if_neg (not_not_intro hvd)]
      simp only [hq]
    · intro hq
      unfold calculate_qoq_change
      rw [if_neg (not_not_intro hvd)]
      simp only [hq]
  · intro store data fmt period sid latest first pd hlen hlast hhead hpd
    constructor
    · intro r hq
      unfold calculate_period_change
      rw [if_neg (not_lt.mpr hlen)]
      simp only [hlast, hhead, hpd, hq]
    · intro hq
      unfold calculate_period_change
      rw [if_neg (not_lt.mpr hlen)]
      simp only [hlast, hhead, hpd, hq]

theorem claim_C1_witness :
    (validDate ⟨2024, 1, 1⟩ = true) ∧
      (replaceYear ⟨2024, 1, 1⟩ ((2024 : Int) - 1) = some ⟨2023, 1, 1⟩) ∧
      (queryNearest [⟨"UNRATE", ⟨2023, 1, 10⟩, 4⟩] "UNRATE" (toDays ⟨2023, 1, 1⟩)
        = some ⟨"UNRATE", ⟨2023, 1, 10⟩, 4⟩) ∧
      calculate_yoy_change [⟨"UNRATE", ⟨2023, 1, 10⟩, 4⟩] ⟨2024, 1, 1⟩ 5
        (some "UNRATE") "percentage" = changeRule "percentage" 5 4 ∧
      ((2 : Nat) ≤ ([⟨⟨2022, 1, 1⟩, 3⟩, ⟨⟨2024, 6, 1⟩, 5⟩] : List DataPoint).length) ∧
      (queryNearest [⟨"UNRATE", ⟨2023, 1, 10⟩, 4⟩] "UNRATE"
          (toDays (⟨2024, 6, 1⟩ : Date) - 365) = none) ∧
      calculate_period_change [⟨"UNRATE", ⟨2023, 1, 10⟩, 4⟩]
        [⟨⟨2022, 1, 1⟩, 3⟩, ⟨⟨2024, 6, 1⟩, 5⟩] "percentage" "1Y" (some "UNRATE")
        = changeRule "percentage" 5 3 :=
  ⟨by decide, by decide, by decide,
    ((claim_C1.2.2.2.2.2.1 [⟨"UNRATE", ⟨2023, 1, 10⟩, 4⟩] ⟨2024, 1, 1⟩ 5
        "UNRATE" "percentage" ⟨2023, 1, 1⟩ (by decide) (by decide)).1
      ⟨"UNRATE", ⟨2023, 1, 10⟩, 4⟩ (by decide)),
    by decide, by decide,
    ((claim_C1.2.2.2.2.2.2.2 [⟨"UNRATE", ⟨2023, 1, 10⟩, 4⟩]
        [⟨⟨2022, 1, 1⟩, 3⟩, ⟨⟨2024, 6, 1⟩, 5⟩] "percentage" "1Y" "UNRATE"
        ⟨⟨2024, 6, 1⟩, 5⟩ ⟨⟨2022, 1, 1⟩, 3⟩ 365 (by decide) (by decide) (by decide)
        (by decide)).2 (by decide))⟩

end

end EconDash
